import Mathlib

set_option maxRecDepth 8000

/-!
Shallow embedding of `python/tvm/auto_scheduler/utils.py`.

The embedding models, faithfully to the source:
* `make_traceback_info` (traceback capture and truncation, cap
  `MAX_TRACEBACK_INFO_LEN = 512`, marker `"\n...\n"`);
* `PropagatingThread` (`run` records the worker's outcome in the `exc` / `ret`
  attributes, `join` re-raises or returns; an attribute that was never
  assigned raises `AttributeError` when read, as in Python);
* `call_func_with_thread` (runs the call on a fresh `PropagatingThread` and
  forwards its outcome);
* `_func_wrapper` and `call_func_with_timeout` (the child pushes either the
  value or an `Exception` carrying the truncated traceback onto the queue;
  the parent waits with a deadline, catches `queue.Empty`, and always runs
  the cleanup sequence before returning);
* `kill_child_processes` (process-tree reaping with `psutil`, with the whole
  enumerate-and-signal loop guarded by one `except psutil.NoSuchProcess`);
* `list_to_tuple`, `serialize_args`, `deserialize_args` (argument
  serialization round trip).

Machine-level effects (actual OS processes, wall-clock time) are represented
by explicit parameters: `arrives` stands for "the queue delivered a message
within the timeout", and a `ChildProc.alive` flag stands for "the process
still existed when the signal was sent".  Python strings are `List Char`;
exceptions delivered as data are explicit constructors.
-/

/-! ### Strings and tracebacks -/

/-- Source: `MAX_TRACEBACK_INFO_LEN = 512`. -/
def MAX_TRACEBACK_INFO_LEN : Nat := 512

/-- The truncation marker `"\n...\n"` inserted by `make_traceback_info`. -/
def truncationMarker : List Char := ['\n', '.', '.', '.', '\n']

/-- Source: `make_traceback_info`.  The argument `info` stands for the string
`str(traceback.format_exc())` computed at the failure site; the function
truncates it to the first and last `MAX_TRACEBACK_INFO_LEN // 2` characters
around the marker when it is longer than `MAX_TRACEBACK_INFO_LEN`.
Python `info[:256]` is `take 256`, `info[-256:]` is `drop (length - 256)`. -/
def make_traceback_info (info : List Char) : List Char :=
  if MAX_TRACEBACK_INFO_LEN < info.length then
    info.take (MAX_TRACEBACK_INFO_LEN / 2) ++ truncationMarker
      ++ info.drop (info.length - MAX_TRACEBACK_INFO_LEN / 2)
  else
    info

/-- Model of `traceback.format_exc()` for an exception with message `M`:
Python's formatted traceback is header lines (`p`), then the final line
ending in the exception message, then a newline.  `p` absorbs everything
printed before the message. -/
def format_exc (p M : List Char) : List Char := p ++ M ++ ['\n']

/-- `containsSub big small`: `small` occurs contiguously inside `big`. -/
def containsSub (big small : List α) : Prop := ∃ s t, big = s ++ small ++ t

/-! ### PropagatingThread -/

/-- The attribute store of a `PropagatingThread` object: `exc = none` /
`ret = none` mean the Python attribute was never assigned (reading it raises
`AttributeError`); `exc = some none` is `self.exc = None`. -/
structure ThreadAttrs (ε α : Type) where
  exc : Option (Option ε)
  ret : Option α

/-- Names of the two attributes `PropagatingThread.run` assigns. -/
inductive AttrName where
  | exc
  | ret
deriving DecidableEq

/-- Python-level faults of the surrounding machinery (as opposed to the
exception `ε` raised by the user's work). -/
inductive PyFault where
  | attributeError (a : AttrName)
  | indexError
  | typeError
  | assertionError
  | importError
deriving DecidableEq

/-- What a call to `PropagatingThread.join` does: return `self.ret`, re-raise
the worker's exception, or raise an `AttributeError` reading an unset
attribute. -/
inductive JoinOutcome (ε α : Type) where
  | returns (v : α)
  | raised (e : ε)
  | fault (f : PyFault)

/-- How far the worker has got: not yet entered `run`, inside the `try`
(after `self.exc = None`), or finished with the target's outcome. -/
inductive WorkerPhase (ε α : Type) where
  | notStarted
  | running
  | finished (r : Except ε α)

/-- The attribute store at each phase of `PropagatingThread.run`:
`run` first sets `self.exc = None`, then on normal return of the target sets
`self.ret`, and on an exception sets `self.exc` instead (`self.ret` stays
unassigned). -/
def phaseAttrs : WorkerPhase ε α → ThreadAttrs ε α
  | .notStarted => ⟨none, none⟩
  | .running => ⟨some none, none⟩
  | .finished (.ok v) => ⟨some none, some v⟩
  | .finished (.error e) => ⟨some (some e), none⟩

/-- Source: `PropagatingThread.run`, run to completion on a target whose
outcome is `target`. -/
def PropagatingThread.run (target : Except ε α) : ThreadAttrs ε α :=
  phaseAttrs (.finished target)

/-- Source: `PropagatingThread.join`, the part after the underlying
`Thread.join` returned: read `self.exc` (truthy exceptions are re-raised,
`None` is falsy), else return `self.ret`.  Reading an unassigned attribute
raises `AttributeError`. -/
def PropagatingThread.join (t : ThreadAttrs ε α) : JoinOutcome ε α :=
  match t.exc with
  | none => .fault (.attributeError .exc)
  | some (some e) => .raised e
  | some none =>
    match t.ret with
    | none => .fault (.attributeError .ret)
    | some v => .returns v

/-! ### call_func_with_thread -/

/-- Observable outcome of calling a Python function: a value, a raised
user exception `ε`, or a raised machinery fault. -/
inductive CallOutcome (ε α : Type) where
  | returns (v : α)
  | raises (e : ε)
  | fault (f : PyFault)

/-- Source: the closure `wrapper` of `call_func_with_thread` together with
the captured list `res`.  Returns the final contents of `res` and the
outcome of the wrapper body `res.append(func(*args, **kwargs))` (whose
return value is Python `None`, i.e. `Unit`). -/
def wrapperRun (f : Except ε α) : List α × Except ε Unit :=
  match f with
  | .ok v => ([v], .ok ())
  | .error e => ([], .error e)

/-- Source: `call_func_with_thread`.  `f` is the outcome of
`func(*args, **kwargs)`.  A new `PropagatingThread` runs `wrapper`;
`t.join()` (no timeout, so the worker has finished) re-raises or returns;
finally `res[0]` is returned (`IndexError` if `res` is empty). -/
def call_func_with_thread (f : Except ε α) : CallOutcome ε α :=
  match PropagatingThread.join (PropagatingThread.run (wrapperRun f).2) with
  | .raised e => .raises e
  | .fault fl => .fault fl
  | .returns _ =>
    match (wrapperRun f).1.head? with
    | some v => .returns v
    | none => .fault .indexError

/-- Modelled from the spec (§4.3): the direct call `func(*args, **kwargs)`,
which `call_func_with_thread` is claimed to be observationally equivalent
to — it returns the value when the call returns and raises the same
exception when the call raises. -/
def direct_call (f : Except ε α) : CallOutcome ε α :=
  match f with
  | .ok v => .returns v
  | .error e => .raises e

/-! ### The child wrapper and the timeout executor -/

/-- Behaviour of one Job's work inside the child: it either returns a value
or raises an exception whose formatted traceback is
`format_exc tracePrefix message`. -/
inductive WorkBehavior (α : Type) where
  | returns (v : α)
  | raises (tracePrefix message : List Char)

/-- The work as a callable: raising is modelled by `Except`, the exception
value carrying the traceback-header text and the message. -/
def workCall : WorkBehavior α → Except (List Char × List Char) α
  | .returns v => .ok v
  | .raises p M => .error (p, M)

/-- What the child pushes onto the queue: the plain result value, or an
`Exception` object whose payload is the truncated traceback text. -/
inductive ChildMsg (α : Type) where
  | value (v : α)
  | exc (text : List Char)

/-- Traceback text formatted for a machinery fault inside the child
(unreachable on the paths proved below). -/
def faultTrace : List Char := ['\n']

/-- Source: `_func_wrapper`.  Runs the work (through
`call_func_with_thread` when `add_thread_wrapper` is set), pushes the result
on success, and on any exception pushes `Exception(make_traceback_info())`
instead — the raw error never crosses the process boundary. -/
def func_wrapper (addThreadWrapper : Bool) (w : WorkBehavior α) : ChildMsg α :=
  let out : CallOutcome (List Char × List Char) α :=
    if addThreadWrapper then call_func_with_thread (workCall w)
    else direct_call (workCall w)
  match out with
  | .returns v => .value v
  | .raises pM => .exc (make_traceback_info (format_exc pM.1 pM.2))
  | .fault _ => .exc (make_traceback_info faultTrace)

/-- The result of `call_func_with_timeout`: the queued value, the queued
`Exception` text, or the `TimeoutError()` marker assigned when `que.get`
raised `queue.Empty`. -/
inductive Outcome (α : Type) where
  | value (v : α)
  | exc (text : List Char)
  | timedOut

/-- Observable steps of `call_func_with_timeout` after the child is
spawned: the blocking `que.get`, then the cleanup sequence. -/
inductive ExecEvent where
  | spawnChild
  | queueGetReturned
  | queueGetTimedOut
  | killChildrenCalled
  | terminateChild
  | joinChild
  | closeQueue
  | joinQueueThread
deriving DecidableEq

/-- The unconditional cleanup block of `call_func_with_timeout`:
`kill_child_processes(process.pid)`, `process.terminate()`,
`process.join()`, `que.close()`, `que.join_thread()`. -/
def cleanup_events : List ExecEvent :=
  [.killChildrenCalled, .terminateChild, .joinChild, .closeQueue, .joinQueueThread]

/-- Source: `call_func_with_timeout`.  `arrives` is true when the queue
yields the child's message within `timeout`, false when `que.get` raises
`queue.Empty` (in which case `res = TimeoutError()` is assigned).  The
returned event list is the ordered trace of observable steps. -/
def call_func_with_timeout (arrives addThreadWrapper : Bool) (w : WorkBehavior α) :
    Outcome α × List ExecEvent :=
  let got : Except Unit (ChildMsg α) :=
    if arrives then .ok (func_wrapper addThreadWrapper w) else .error ()
  let res : Outcome α :=
    match got with
    | .ok (.value v) => .value v
    | .ok (.exc s) => .exc s
    | .error _ => .timedOut
  let getEvent : ExecEvent :=
    match got with
    | .ok _ => .queueGetReturned
    | .error _ => .queueGetTimedOut
  (res, .spawnChild :: getEvent :: cleanup_events)

/-! ### kill_child_processes -/

/-- One descendant found by `parent.children(recursive=True)`: its pid and
whether it still existed when `send_signal` reached it (`alive = false`
means `send_signal` raises `psutil.NoSuchProcess`). -/
structure ChildProc where
  pid : Nat
  alive : Bool
deriving DecidableEq

/-- The `for process in children: process.send_signal(sig)` loop, run inside
one `try ... except psutil.NoSuchProcess: return`.  Returns the `(pid, sig)`
pairs actually delivered: a vanished process raises, the exception is caught
outside the loop, and the remaining children are never reached. -/
def send_signal_loop (sig : Nat) : List ChildProc → List (Nat × Nat)
  | [] => []
  | c :: rest =>
    if c.alive then (c.pid, sig) :: send_signal_loop sig rest
    else []

/-- Source: `kill_child_processes(parent_pid, sig=signal.SIGTERM)`.
`psutil_present` models the import guard (`raise ImportError` when absent);
`parent_exists` models whether `psutil.Process(parent_pid)` succeeds;
`enum_succeeds` models whether `parent.children(recursive=True)` succeeds
(both `NoSuchProcess` failures are caught and the function returns).
The result is the list of signals delivered. -/
def kill_child_processes (psutil_present parent_exists enum_succeeds : Bool)
    (children : List ChildProc) (sig : Nat) : Except PyFault (List (Nat × Nat)) :=
  match psutil_present, parent_exists, enum_succeeds with
  | false, _, _ => .error .importError
  | true, false, _ => .ok []
  | true, true, false => .ok []
  | true, true, true => .ok (send_signal_loop sig children)

/-! ### serialize_args / deserialize_args -/

/-- Python values handled by the argument (de)serializers: ints, strings,
`te.Tensor` (already reduced to its constant shape and dtype), lists and
tuples. -/
inductive PyVal where
  | int (n : Int)
  | str (s : List Char)
  | tensor (shape : List Int) (dtype : List Char)
  | list (xs : List PyVal)
  | tuple (xs : List PyVal)

mutual

/-- The per-element conversion of `list_to_tuple`:
`list_to_tuple(y) if isinstance(y, list) else y` — only list elements are
converted, every other value (tuples included) is kept as is. -/
def convElem : PyVal → PyVal
  | .list zs => .tuple (convList zs)
  | v => v

/-- The generator `(... for y in x)` of `list_to_tuple`, elementwise. -/
def convList : List PyVal → List PyVal
  | [] => []
  | y :: ys => convElem y :: convList ys

end

/-- Source: `list_to_tuple(x)`.  The `assert isinstance(x, list)` is encoded
in the argument type: the function is only ever applied to lists. -/
def list_to_tuple (x : List PyVal) : PyVal := .tuple (convList x)

/-- Python `isinstance(t, Hashable)`: a protocol check, not deep
hashability — `list` has no `__hash__`, every other modelled type does
(tuples pass the check regardless of their contents). -/
def isHashableB : PyVal → Bool
  | .list _ => false
  | _ => true

/-- The tag string `"TENSOR"`. -/
def tensorTag : List Char := ['T', 'E', 'N', 'S', 'O', 'R']

/-- Python `t[0] == "TENSOR"`: only a string compares equal to a string. -/
def isTensorTag : PyVal → Bool
  | .str s => s == tensorTag
  | _ => false

/-- The conversion `serialize_args` applies to one argument: a `Tensor`
becomes `("TENSOR", get_const_tuple(t.shape), t.dtype)`, a list becomes
`list_to_tuple(t)`, everything else is unchanged. -/
def serialize_one : PyVal → PyVal
  | .tensor shape dtype =>
    .tuple [.str tensorTag, .tuple (shape.map PyVal.int), .str dtype]
  | t => convElem t

/-- Source: `serialize_args(args)`: convert each argument, assert the result
is `Hashable` (an `AssertionError` aborts the whole call), and collect. -/
def serialize_args (args : List PyVal) : Except PyFault (List PyVal) :=
  match args with
  | [] => .ok []
  | t :: rest =>
    let t' := serialize_one t
    if isHashableB t' then
      match serialize_args rest with
      | .ok l => .ok (t' :: l)
      | .error e => .error e
    else .error .assertionError

/-- An `int` constant, for decoding a serialized shape component. -/
def intConst : PyVal → Option Int
  | .int n => some n
  | _ => none

/-- All-int decoding of a shape sequence, elementwise. -/
def decodeIntList : List PyVal → Option (List Int)
  | [] => some []
  | v :: rest =>
    match intConst v, decodeIntList rest with
    | some n, some l => some (n :: l)
    | _, _ => none

/-- The shapes `te.placeholder` accepts: a tuple or list of ints. -/
def decodeShape : PyVal → Option (List Int)
  | .tuple xs => decodeIntList xs
  | .list xs => decodeIntList xs
  | _ => none

/-- The dtypes `te.placeholder` accepts: a string. -/
def decodeDtype : PyVal → Option (List Char)
  | .str s => some s
  | _ => none

/-- Source: `placeholder(shape=t[1], dtype=t[2])` — builds a fresh `Tensor`
with the given shape and dtype, failing on ill-typed arguments. -/
def placeholder (shapeV dtypeV : PyVal) : Except PyFault PyVal :=
  match decodeShape shapeV, decodeDtype dtypeV with
  | some sh, some d => .ok (.tensor sh d)
  | _, _ => .error .typeError

/-- The body of `deserialize_args` for one `t` that is a tuple or list with
elements `xs`: Python evaluates `t[0] == "TENSOR"` (an `IndexError` on an
empty sequence), rebuilds a placeholder on a match, and keeps `t` otherwise
(`t[1]` / `t[2]` on a too-short sequence is again an `IndexError`). -/
def deserialize_seq (orig : PyVal) (xs : List PyVal) : Except PyFault PyVal :=
  match xs with
  | [] => .error .indexError
  | h :: rest =>
    if isTensorTag h then
      match rest with
      | shapeV :: dtypeV :: _ => placeholder shapeV dtypeV
      | _ => .error .indexError
    else .ok orig

/-- The per-element step of `deserialize_args`. -/
def deserialize_one : PyVal → Except PyFault PyVal
  | .tuple xs => deserialize_seq (.tuple xs) xs
  | .list xs => deserialize_seq (.list xs) xs
  | v => .ok v

/-- Source: `deserialize_args(args)`: rebuild each argument in order; a
raised error aborts the whole call. -/
def deserialize_args (args : List PyVal) : Except PyFault (List PyVal) :=
  match args with
  | [] => .ok []
  | t :: rest =>
    match deserialize_one t with
    | .error e => .error e
    | .ok v =>
      match deserialize_args rest with
      | .ok l => .ok (v :: l)
      | .error e => .error e

/-- What one round-tripped entry comes back as: a `Tensor` is rebuilt as a
placeholder with the same shape and dtype, every other entry is its
serialized form (lists turned into tuples, the rest unchanged). -/
def round_trip_entry : PyVal → PyVal
  | .tensor shape dtype => .tensor shape dtype
  | t => convElem t

/-- Entries on which the round trip is well behaved: tensors always; any
other entry provided its serialized form is not an empty tuple (reading
`t[0]` raises `IndexError`) and does not start with the string `"TENSOR"`
(it would be rebuilt as a placeholder instead of kept). -/
def entryOK : PyVal → Bool
  | .tensor _ _ => true
  | t =>
    match convElem t with
    | .tuple [] => false
    | .tuple (h :: _) => !(isTensorTag h)
    | .list _ => false
    | _ => true

/-! ### Helper lemmas about `make_traceback_info` -/

theorem make_traceback_info_of_le (info : List Char)
    (h : info.length ≤ MAX_TRACEBACK_INFO_LEN) :
    make_traceback_info info = info := by
  unfold make_traceback_info
  rw [if_neg (by omega)]

theorem make_traceback_info_of_long (info : List Char)
    (h : MAX_TRACEBACK_INFO_LEN < info.length) :
    make_traceback_info info
      = info.take (MAX_TRACEBACK_INFO_LEN / 2) ++ truncationMarker
          ++ info.drop (info.length - MAX_TRACEBACK_INFO_LEN / 2) := by
  unfold make_traceback_info
  rw [if_pos h]

theorem length_make_traceback_info_of_long (info : List Char)
    (h : MAX_TRACEBACK_INFO_LEN < info.length) :
    (make_traceback_info info).length
      = MAX_TRACEBACK_INFO_LEN + truncationMarker.length := by
  rw [make_traceback_info_of_long info h]
  simp only [List.length_append, List.length_take, List.length_drop]
  simp only [MAX_TRACEBACK_INFO_LEN, truncationMarker] at *
  simp only [List.length_cons, List.length_nil]
  omega

theorem length_make_traceback_info_le (info : List Char) :
    (make_traceback_info info).length
      ≤ MAX_TRACEBACK_INFO_LEN + truncationMarker.length := by
  by_cases h : MAX_TRACEBACK_INFO_LEN < info.length
  · rw [length_make_traceback_info_of_long info h]
  · rw [make_traceback_info_of_le info (by omega)]
    omega

theorem length_format_exc (p M : List Char) :
    (format_exc p M).length = p.length + M.length + 1 := by
  simp only [format_exc, List.length_append, List.length_cons, List.length_nil]

/-- The truncated traceback always keeps the tail of the exception message
that fits in the kept suffix: `M.drop (M.length + 1 - cap/2)` (all of `M`
when `M` plus the final newline fits in `cap/2` characters) occurs
contiguously in the output. -/
theorem make_traceback_info_keeps_tail (p M : List Char) :
    containsSub (make_traceback_info (format_exc p M))
      (M.drop (M.length + 1 - MAX_TRACEBACK_INFO_LEN / 2)) := by
  have hlen := length_format_exc p M
  by_cases h : MAX_TRACEBACK_INFO_LEN < (format_exc p M).length
  · rw [make_traceback_info_of_long _ h]
    by_cases hm : MAX_TRACEBACK_INFO_LEN / 2 ≤ M.length + 1
    · -- the kept suffix starts inside (or at) the message
      have hidx : (format_exc p M).length - MAX_TRACEBACK_INFO_LEN / 2
          = p.length + (M.length + 1 - MAX_TRACEBACK_INFO_LEN / 2) := by omega
      have hdrop : (format_exc p M).drop
            ((format_exc p M).length - MAX_TRACEBACK_INFO_LEN / 2)
          = M.drop (M.length + 1 - MAX_TRACEBACK_INFO_LEN / 2) ++ ['\n'] := by
        rw [hidx]
        show (p ++ M ++ ['\n']).drop _ = _
        rw [List.append_assoc, List.drop_append,
          List.drop_append_of_le_length
            (by simp only [MAX_TRACEBACK_INFO_LEN] at *; omega)]
      rw [hdrop]
      exact ⟨(format_exc p M).take (MAX_TRACEBACK_INFO_LEN / 2) ++ truncationMarker,
        ['\n'], by simp [List.append_assoc]⟩
    · -- the whole message (and more) fits in the kept suffix
      have hk : M.length + 1 - MAX_TRACEBACK_INFO_LEN / 2 = 0 := by omega
      have hidx : (format_exc p M).length - MAX_TRACEBACK_INFO_LEN / 2 ≤ p.length := by
        omega
      have hdrop : (format_exc p M).drop
            ((format_exc p M).length - MAX_TRACEBACK_INFO_LEN / 2)
          = p.drop ((format_exc p M).length - MAX_TRACEBACK_INFO_LEN / 2)
              ++ (M ++ ['\n']) := by
        show (p ++ M ++ ['\n']).drop _ = _
        rw [List.append_assoc, List.drop_append_of_le_length hidx]
      rw [hk, hdrop]
      exact ⟨(format_exc p M).take (MAX_TRACEBACK_INFO_LEN / 2) ++ truncationMarker
          ++ p.drop ((format_exc p M).length - MAX_TRACEBACK_INFO_LEN / 2),
        ['\n'], by simp [List.append_assoc]⟩
  · rw [make_traceback_info_of_le _ (by omega)]
    refine ⟨p ++ M.take (M.length + 1 - MAX_TRACEBACK_INFO_LEN / 2), ['\n'], ?_⟩
    show p ++ M ++ ['\n'] = _
    have hsplit : M ++ ['\n']
        = M.take (M.length + 1 - MAX_TRACEBACK_INFO_LEN / 2)
          ++ (M.drop (M.length + 1 - MAX_TRACEBACK_INFO_LEN / 2) ++ ['\n']) := by
      rw [← List.append_assoc, List.take_append_drop]
    simp only [List.append_assoc]
    rw [hsplit]

/-! ### Claims C1 - C4 -/

/-- C2 (confirmed): a trace string of length `2 * MAX_TRACEBACK_INFO_LEN` is
reduced by `make_traceback_info` to exactly
`MAX/2 + len(marker) + MAX/2` characters — the first `MAX/2` original
characters, the marker `"\n...\n"`, then the last `MAX/2` original
characters, in order — while a string of length at most `MAX` is returned
unchanged. -/
theorem make_traceback_info_truncation (long short : List Char)
    (hl : long.length = 2 * MAX_TRACEBACK_INFO_LEN)
    (hs : short.length ≤ MAX_TRACEBACK_INFO_LEN) :
    make_traceback_info long
      = long.take (MAX_TRACEBACK_INFO_LEN / 2) ++ truncationMarker
          ++ long.drop (long.length - MAX_TRACEBACK_INFO_LEN / 2) ∧
    (make_traceback_info long).length
      = MAX_TRACEBACK_INFO_LEN / 2 + truncationMarker.length
          + MAX_TRACEBACK_INFO_LEN / 2 ∧
    make_traceback_info short = short := by
  have hlong : MAX_TRACEBACK_INFO_LEN < long.length := by
    simp only [MAX_TRACEBACK_INFO_LEN] at *
    omega
  refine ⟨make_traceback_info_of_long long hlong, ?_, make_traceback_info_of_le short hs⟩
  rw [length_make_traceback_info_of_long long hlong]
  simp [MAX_TRACEBACK_INFO_LEN, truncationMarker]

/-- Witness for `make_traceback_info_truncation` at a concrete synthetic
trace of length `1024` and a concrete short string. -/
theorem make_traceback_info_truncation_witness :
    make_traceback_info (List.replicate 1024 'a')
      = (List.replicate 1024 'a').take (MAX_TRACEBACK_INFO_LEN / 2) ++ truncationMarker
          ++ (List.replicate 1024 'a').drop
              ((List.replicate 1024 'a').length - MAX_TRACEBACK_INFO_LEN / 2) ∧
    (make_traceback_info (List.replicate 1024 'a')).length
      = MAX_TRACEBACK_INFO_LEN / 2 + truncationMarker.length
          + MAX_TRACEBACK_INFO_LEN / 2 ∧
    make_traceback_info (List.replicate 12 'b') = List.replicate 12 'b' :=
  make_traceback_info_truncation (List.replicate 1024 'a') (List.replicate 12 'b')
    (by simp [MAX_TRACEBACK_INFO_LEN]) (by simp [MAX_TRACEBACK_INFO_LEN])

/-- C1 (amended): for a Job whose work raises with message `M` (so the
formatted traceback is `format_exc p M` for some header `p`), and whose
message is delivered in time, `call_func_with_timeout` returns the failure
as data — an `Outcome.exc` carrying the truncated trace text, produced by
the child pushing `Exception(make_traceback_info())`, never by re-raising —
whose text contains `M`'s kept tail (all of `M` when it fits) and whose
length is at most `MAX_TRACEBACK_INFO_LEN + len("\n...\n")` (517), not
`MAX_TRACEBACK_INFO_LEN` (512) as originally claimed. -/
theorem call_func_with_timeout_failure_report (α : Type) (addThreadWrapper : Bool)
    (p M : List Char) :
    (@call_func_with_timeout α true addThreadWrapper (WorkBehavior.raises p M)).1
      = Outcome.exc (make_traceback_info (format_exc p M)) ∧
    (make_traceback_info (format_exc p M)).length
      ≤ MAX_TRACEBACK_INFO_LEN + truncationMarker.length ∧
    containsSub (make_traceback_info (format_exc p M))
      (M.drop (M.length + 1 - MAX_TRACEBACK_INFO_LEN / 2)) :=
  ⟨by cases addThreadWrapper <;> rfl,
   length_make_traceback_info_le (format_exc p M),
   make_traceback_info_keeps_tail p M⟩

/-- C1 counterexample: for a work item raising with a 1024-character
message, the delivered failure text has length `517 > 512`: the claim's
bound `len(report.text) <= MAX_TRACEBACK_INFO_LEN` is false, because the
truncation keeps `256 + 5 + 256` characters. -/
theorem call_func_with_timeout_report_exceeds_cap :
    (@call_func_with_timeout Unit true false
        (WorkBehavior.raises [] (List.replicate 1024 'a'))).1
      = Outcome.exc (make_traceback_info (format_exc [] (List.replicate 1024 'a'))) ∧
    ¬ (make_traceback_info (format_exc [] (List.replicate 1024 'a'))).length
        ≤ MAX_TRACEBACK_INFO_LEN := by
  refine ⟨rfl, ?_⟩
  rw [length_make_traceback_info_of_long _ (by simp [format_exc, MAX_TRACEBACK_INFO_LEN])]
  decide

/-- C3 (confirmed): when the result channel yields no message within the
timeout (`que.get` raises `queue.Empty`), `call_func_with_timeout` catches
it and returns the `TimeoutError()` marker as its result value; the model's
total return type records that no exception unwinds the caller. -/
theorem call_func_with_timeout_timed_out (α : Type) (addThreadWrapper : Bool)
    (w : WorkBehavior α) :
    (call_func_with_timeout false addThreadWrapper w).1 = Outcome.timedOut := rfl

/-- C4 (confirmed): on every exit path of `call_func_with_timeout` after the
child is spawned — a message arriving in time or the deadline elapsing —
the event trace ends with the full unconditional cleanup sequence:
`kill_child_processes`, `process.terminate()`, `process.join()`,
`que.close()`, `que.join_thread()`, before the call returns. -/
theorem call_func_with_timeout_unconditional_cleanup (α : Type)
    (arrives addThreadWrapper : Bool) (w : WorkBehavior α) :
    (call_func_with_timeout arrives addThreadWrapper w).2
      = ExecEvent.spawnChild
        :: (if arrives then ExecEvent.queueGetReturned else ExecEvent.queueGetTimedOut)
        :: cleanup_events := by
  cases arrives <;> rfl

/-! ### Claims C5 - C9 -/

/-- C5 (confirmed): for a `PropagatingThread` whose worker has finished,
`join` re-raises the very exception value the worker raised (same value,
hence same identity and type), and returns the worker's value when it
returned normally. -/
theorem propagating_thread_join_propagates (ε α : Type) (e : ε) (v : α) :
    PropagatingThread.join (PropagatingThread.run (Except.error e : Except ε α))
      = JoinOutcome.raised e ∧
    PropagatingThread.join (PropagatingThread.run (Except.ok v : Except ε α))
      = JoinOutcome.returns v :=
  ⟨rfl, rfl⟩

/-- C6 counterexample: when `join(timeout)` returns with the worker started
but not finished, the attribute store is `exc = None`, `ret` unassigned, so
`return self.ret` raises `AttributeError` — `join` does not return "without
a value and without raising any error" as claimed. -/
theorem propagating_thread_join_timeout_attribute_error :
    PropagatingThread.join (phaseAttrs (WorkerPhase.running : WorkerPhase Unit Unit))
      = JoinOutcome.fault (PyFault.attributeError AttrName.ret) := rfl

/-- C6 (amended): when the timeout elapses before the worker finishes,
`join` does not deliver a value; it raises an `AttributeError` — reading the
unassigned `self.ret` if the worker has started (it set `self.exc = None`
first), or the unassigned `self.exc` if it has not entered `run` yet. -/
theorem propagating_thread_join_unfinished_raises (ε α : Type) :
    PropagatingThread.join (phaseAttrs (WorkerPhase.running : WorkerPhase ε α))
      = JoinOutcome.fault (PyFault.attributeError AttrName.ret) ∧
    PropagatingThread.join (phaseAttrs (WorkerPhase.notStarted : WorkerPhase ε α))
      = JoinOutcome.fault (PyFault.attributeError AttrName.exc) :=
  ⟨rfl, rfl⟩

/-- C7 (confirmed): `call_func_with_thread` is observationally equivalent to
the direct call — it returns the same value when the call returns and
re-raises the same propagated exception when the call raises. -/
theorem call_func_with_thread_equiv_direct_call (ε α : Type) (f : Except ε α) :
    call_func_with_thread f = direct_call f := by
  cases f <;> rfl

/-- C8 counterexample: with descendants `[pid 1 alive, pid 2 vanished,
pid 3 alive]`, the single `except psutil.NoSuchProcess` around the whole
loop catches the failure at pid 2 and returns: only pid 1 is signalled and
the still-live pid 3 is skipped, contradicting "the signal is still sent to
every remaining live descendant". -/
theorem kill_child_processes_skips_remaining :
    kill_child_processes true true true [⟨1, true⟩, ⟨2, false⟩, ⟨3, true⟩] 15
      = .ok [(1, 15)] ∧
    (3, 15) ∉ send_signal_loop 15 [⟨1, true⟩, ⟨2, false⟩, ⟨3, true⟩] :=
  ⟨rfl, by decide⟩

theorem send_signal_loop_all_alive (sig : Nat) (pre rest : List ChildProc)
    (hpre : ∀ c ∈ pre, c.alive = true) :
    send_signal_loop sig (pre ++ rest)
      = pre.map (fun c => (c.pid, sig)) ++ send_signal_loop sig rest := by
  induction pre with
  | nil => simp
  | cons c cs ih =>
    have hc : c.alive = true := hpre c (by simp)
    simp [send_signal_loop, hc, ih (fun d hd => hpre d (by simp [hd]))]

/-- C8 (amended): when a descendant disappears between enumeration and
signaling, no exception escapes (`NoSuchProcess` is caught and the call
returns normally), and every descendant enumerated before the vanished one
is signalled — but the loop is aborted there, so descendants enumerated
after it are not signalled, rather than "ignored and continued". -/
theorem kill_child_processes_stops_at_vanished (sig : Nat) (pre post : List ChildProc)
    (dead : ChildProc) (hpre : ∀ c ∈ pre, c.alive = true)
    (hdead : dead.alive = false) :
    kill_child_processes true true true (pre ++ dead :: post) sig
      = .ok (pre.map fun c => (c.pid, sig)) := by
  show Except.ok (send_signal_loop sig (pre ++ dead :: post)) = _
  rw [send_signal_loop_all_alive sig pre (dead :: post) hpre]
  simp [send_signal_loop, hdead]

/-- Witness for `kill_child_processes_stops_at_vanished` at a concrete
process list. -/
theorem kill_child_processes_stops_at_vanished_witness :
    kill_child_processes true true true ([⟨1, true⟩] ++ ⟨2, false⟩ :: [⟨3, true⟩]) 15
      = .ok (([⟨1, true⟩] : List ChildProc).map fun c => (c.pid, 15)) :=
  kill_child_processes_stops_at_vanished 15 [⟨1, true⟩] [⟨3, true⟩] ⟨2, false⟩
    (by decide) rfl

/-- C9 (confirmed): when the pid no longer refers to a live process,
`psutil.Process(parent_pid)` raises `NoSuchProcess`, which is caught and
the function returns immediately: no signal is sent and no error escapes.
The model is a pure function of its arguments, so every repeated call on
the same dead pid returns the same `.ok []`: a no-op every time. -/
theorem kill_child_processes_dead_pid_noop (enum_succeeds : Bool)
    (children : List ChildProc) (sig : Nat) :
    kill_child_processes true false enum_succeeds children sig = .ok [] := rfl

/-! ### Claim C10 -/

theorem isHashableB_serialize_one (t : PyVal) :
    isHashableB (serialize_one t) = true := by
  cases t <;> rfl

theorem serialize_args_eq (args : List PyVal) :
    serialize_args args = .ok (args.map serialize_one) := by
  induction args with
  | nil => rfl
  | cons t rest ih => simp [serialize_args, isHashableB_serialize_one t, ih]

theorem decodeIntList_map (s : List Int) :
    decodeIntList (s.map PyVal.int) = some s := by
  induction s with
  | nil => rfl
  | cons n rest ih => simp [decodeIntList, intConst, ih]

theorem deserialize_one_serialize_one (t : PyVal) (h : entryOK t = true) :
    deserialize_one (serialize_one t) = .ok (round_trip_entry t) := by
  cases t with
  | tensor shape dtype =>
    simp [serialize_one, deserialize_one, deserialize_seq, isTensorTag,
      placeholder, decodeShape, decodeDtype, decodeIntList_map, round_trip_entry]
  | int n => rfl
  | str s => rfl
  | list xs =>
    rcases hc : convList xs with _ | ⟨hd, tl⟩
    · simp [entryOK, convElem, hc] at h
    · simp only [entryOK, convElem, hc, Bool.not_eq_eq_eq_not, Bool.not_true] at h
      simp [serialize_one, convElem, hc, deserialize_one, deserialize_seq, h,
        round_trip_entry]
  | tuple xs =>
    rcases xs with _ | ⟨hd, tl⟩
    · simp [entryOK, convElem] at h
    · simp only [entryOK, convElem, Bool.not_eq_eq_eq_not, Bool.not_true] at h
      simp [serialize_one, convElem, deserialize_one, deserialize_seq, h,
        round_trip_entry]

theorem deserialize_args_map (args : List PyVal)
    (h : ∀ t ∈ args, entryOK t = true) :
    deserialize_args (args.map serialize_one) = .ok (args.map round_trip_entry) := by
  induction args with
  | nil => rfl
  | cons t rest ih =>
    simp [deserialize_args, deserialize_one_serialize_one t (h t (by simp)),
      ih (fun d hd => h d (by simp [hd]))]

/-- C10 (amended): for every argument sequence whose entries are tensors,
lists, tuples or hashable scalars, `serialize_args` succeeds and converts
each entry (`Tensor` to a `("TENSOR", shape, dtype)` tuple, list to tuple,
the rest unchanged); and provided no entry serializes to an empty sequence
(reading `t[0]` raises `IndexError`) or to a sequence whose first element
is the string `"TENSOR"` (it would be rebuilt as a placeholder),
`deserialize_args ∘ serialize_args` yields a sequence of the same length in
which each `Tensor` is replaced by a placeholder with the same shape and
dtype and every other entry is unchanged up to list-to-tuple conversion. -/
theorem serialize_deserialize_round_trip (args : List PyVal)
    (h : ∀ t ∈ args, entryOK t = true) :
    serialize_args args = .ok (args.map serialize_one) ∧
    deserialize_args (args.map serialize_one) = .ok (args.map round_trip_entry) :=
  ⟨serialize_args_eq args, deserialize_args_map args h⟩

/-- Arguments exercising every entry kind of the round trip: a tensor, a
nested list, an int, a tuple, and a string. -/
def roundTripArgs : List PyVal :=
  [.tensor [2, 3] ['f', '3', '2'],
   .list [.int 1, .list [.int 2], .str ['x']],
   .int 7,
   .tuple [.int 1, .int 2],
   .str ['h', 'i']]

/-- Witness for `serialize_deserialize_round_trip` at `roundTripArgs`. -/
theorem serialize_deserialize_round_trip_witness :
    serialize_args roundTripArgs = .ok (roundTripArgs.map serialize_one) ∧
    deserialize_args (roundTripArgs.map serialize_one)
      = .ok (roundTripArgs.map round_trip_entry) :=
  serialize_deserialize_round_trip roundTripArgs (by decide)

/-- C10 counterexample: the round trip is not the identity up to
list-to-tuple conversion on all hashable entries.  An empty list entry
serializes to `()` and `deserialize_args` then raises `IndexError` reading
`t[0]`; and a list entry whose first element is the string `"TENSOR"`
serializes to a `("TENSOR", ...)` tuple that is rebuilt as a placeholder
tensor instead of being kept. -/
theorem round_trip_not_identity :
    (serialize_args [PyVal.list []] = .ok [PyVal.tuple []] ∧
     deserialize_args [PyVal.tuple []] = .error PyFault.indexError) ∧
    (serialize_args [PyVal.list [PyVal.str tensorTag, PyVal.tuple [PyVal.int 2],
          PyVal.str ['f']]]
        = .ok [PyVal.tuple [PyVal.str tensorTag, PyVal.tuple [PyVal.int 2],
            PyVal.str ['f']]] ∧
     deserialize_args [PyVal.tuple [PyVal.str tensorTag, PyVal.tuple [PyVal.int 2],
          PyVal.str ['f']]]
        = .ok [PyVal.tensor [2] ['f']]) := by
  exact ⟨⟨rfl, rfl⟩, ⟨rfl, rfl⟩⟩
